import Mathlib

/-!
Shallow embedding of `src/era5_server.py` (ERA5 MCP server).

The program is a thin orchestration layer over two external collaborators:
the CDS retrieval client (`cdsapi.Client().retrieve`) and the NetCDF
reading library (`xarray.open_dataset`).  Those collaborators, together
with the filesystem (`Path.exists`) and path resolution (`Path.resolve`),
are modelled as an oracle structure `World`; the repository's own code is
translated function by function below.
-/

/-- Python values as they occur in this program: strings, integers,
lists of strings (the `year` parameter may be a list), and string-keyed
dictionaries (the request objects).  Dictionaries keep insertion order,
as Python dicts do. -/
inductive PyVal where
  | str : String → PyVal
  | int : Int → PyVal
  | strlist : List String → PyVal
  | dict : List (String × PyVal) → PyVal

/-- A variable or coordinate of an opened NetCDF dataset: its name, its
dimension tuple, and the `long_name` / `units` attributes (absent
attributes are `none`; the code renders them via `attrs.get(key, '')`). -/
structure NcVar where
  name : String
  dims : List String
  long_name : Option String
  units : Option String
deriving DecidableEq

/-- An opened NetCDF dataset as exposed by the external reading library:
dimension names with sizes, coordinates and data variables, each listed
in the file's native declaration order. -/
structure NcDataset where
  dims : List (String × Nat)
  coords : List NcVar
  data_vars : List NcVar
deriving DecidableEq

/-- The external environment of one invocation: the filesystem and the
two external collaborators.  `fileExists` models `Path(p).exists()`;
`open_dataset` models `xarray.open_dataset` (error = any exception it
raises, carrying its description); `retrieve` models
`cdsapi.Client().retrieve(dataset, request, path)`, which on success
writes the target file, yielding the post-download world, and on failure
raises an error with a description; `resolve` models `Path(p).resolve()`,
which maps a filename to its absolute resolved path. -/
structure World where
  fileExists : String → Bool
  open_dataset : String → Except String NcDataset
  retrieve : PyVal → PyVal → String → Except String World
  resolve : String → String

/-- Outcome of a Python call at the tool-facade boundary: either a value
returned normally (`ok`), or an exception escaping unhandled (`exn`). -/
inductive PyResult where
  | ok : String → PyResult
  | exn : String → PyResult
deriving DecidableEq

/-- Splits a character list at `/` separators (helper for `pathName`). -/
def splitSlashAux : List Char → List Char → List String
  | cur, [] => [String.mk cur.reverse]
  | cur, c :: cs =>
      if c = '/' then String.mk cur.reverse :: splitSlashAux [] cs
      else splitSlashAux (c :: cur) cs

/-- Models `Path(p).name`: the final path component, ignoring empty and
`.` components. -/
def pathName (p : String) : String :=
  ((splitSlashAux [] p.toList).filter (fun s => s ≠ "" && s ≠ ".")).getLastD ""

/-- Python's `str` of a tuple of strings, as produced by formatting the
`dims` tuple of an xarray variable: `()`, `('time',)`,
`('time', 'latitude')`, ... -/
def pyTupleRepr : List String → String
  | [x] => "('" ++ x ++ "',)"
  | xs => "(" ++ String.intercalate ", " (xs.map (fun x => "'" ++ x ++ "'")) ++ ")"

/-- One line of the coordinate/variable sections of the inspection
summary: `- {name} ({dims}): {long_name} [{units}]` with absent
attributes rendered as the empty string. -/
def fmtVar (v : NcVar) : String :=
  "- " ++ v.name ++ " (" ++ pyTupleRepr v.dims ++ "): "
    ++ v.long_name.getD "" ++ " [" ++ v.units.getD "" ++ "]"

/-- One line of the dimensions section: `- {dim}: {size}`. -/
def dimLine (p : String × Nat) : String :=
  "- " ++ p.1 ++ ": " ++ toString p.2

/-- Python's `sep.join(items)` (the code's `"\n".join(summary)`). -/
def strJoinSep (sep : String) : List String → String
  | [] => ""
  | [x] => x
  | x :: xs => x ++ sep ++ strJoinSep sep xs

/-- Plain concatenation of a list of strings (used to state how the
summary decomposes into sections). -/
def strJoin : List String → String
  | [] => ""
  | x :: xs => x ++ strJoin xs

/-- The inner `_sync_inspect` closure of `_internal_inspect_netcdf`:
checks existence, opens the dataset, and renders the three-section
summary; any open/read failure is caught and rendered as an error
string. -/
def sync_inspect (w : World) (filepath : String) : String :=
  if !(w.fileExists filepath) then
    "Error: File not found at '" ++ filepath ++ "'"
  else
    match w.open_dataset filepath with
    | .error e => "Error inspecting NetCDF file: " ++ e
    | .ok ds =>
        strJoinSep "\n"
          (["--- NetCDF Inspection Summary for " ++ pathName filepath ++ " ---",
            "\n[Dimensions]"]
            ++ ds.dims.map dimLine
            ++ ["\n[Coordinates]"]
            ++ ds.coords.map fmtVar
            ++ ["\n[Variables]"]
            ++ ds.data_vars.map fmtVar
            ++ ["\n--- End of Summary ---"])

/-- `_internal_inspect_netcdf`: awaits `_sync_inspect` on the executor
and returns its string; the body never raises, so the result is always
`ok`. -/
def internal_inspect_netcdf (w : World) (filepath : String) : String :=
  sync_inspect w filepath

/-- The `inspect_netcdf` tool: delegates to `_internal_inspect_netcdf`. -/
def inspect_netcdf (w : World) (filepath : String) : PyResult :=
  PyResult.ok (internal_inspect_netcdf w filepath)

/-- The body of `_internal_fetch_and_inspect`, reached once Python has
bound its three parameters.  Line 44 (`Path(output_filename).resolve()`)
runs outside any `try`, so a non-path `output_filename` raises an
unhandled `TypeError`; with a string it resolves the output path, then
the offloaded `_blocking_download` closure wraps the retrieval and the
follow-up inspection in a `try` whose handler returns an error string. -/
def internal_fetch_and_inspect (w : World) (dataset request output_filename : PyVal) :
    PyResult :=
  match output_filename with
  | .str ofn =>
      let output_path := w.resolve ofn
      match w.retrieve dataset request output_path with
      | .error e => PyResult.ok ("Error during CDS API request: " ++ e ++ ".")
      | .ok w2 =>
          PyResult.ok ("Successfully downloaded data to '" ++ output_path ++ "'.\n\n"
            ++ internal_inspect_netcdf w2 output_path)
  | _ => PyResult.exn "TypeError: argument should be a str or an os.PathLike object"

/-- Positional-call binding for `_internal_fetch_and_inspect`: the
function declares exactly three parameters, so Python binds a
three-element argument list and runs the body, while any other arity
raises a `TypeError` at the call site, before the body (and its `try`
block) ever runs. -/
def internal_fetch_and_inspect_call (w : World) (args : List PyVal) : PyResult :=
  match args with
  | [dataset, request, output_filename] =>
      internal_fetch_and_inspect w dataset request output_filename
  | _ =>
      PyResult.exn "TypeError: _internal_fetch_and_inspect() given the wrong number of positional arguments"

/-- The request dictionary built by `_internal_fetch_era5_pressure_levels`
(lines 74-82): the pressure level is coerced with `str(...)`, the year
keeps its `str | list[str]` type. -/
def pressure_levels_request (var : String) (pressure_level : Int) (year : PyVal)
    (month : String) : List (String × PyVal) :=
  [("product_type", PyVal.str "monthly_averaged_reanalysis"),
   ("variable", PyVal.str var),
   ("pressure_level", PyVal.str (toString pressure_level)),
   ("year", year),
   ("month", PyVal.str month),
   ("time", PyVal.str "00:00"),
   ("data_format", PyVal.str "netcdf")]

/-- The argument list `_internal_fetch_era5_pressure_levels` hands to
`_internal_fetch_and_inspect` (line 83): dataset constant, request
dictionary, output filename — three positional arguments. -/
def pressure_levels_helper_args (var : String) (pressure_level : Int) (year : PyVal)
    (month : String) (output_filename : String) : List PyVal :=
  [PyVal.str "reanalysis-era5-pressure-levels-monthly-means",
   PyVal.dict (pressure_levels_request var pressure_level year month),
   PyVal.str output_filename]

/-- `_internal_fetch_era5_pressure_levels`: builds the request and calls
the shared helper with three positional arguments. -/
def internal_fetch_era5_pressure_levels (w : World) (var : String)
    (pressure_level : Int) (year : PyVal) (month : String) (output_filename : String) :
    PyResult :=
  internal_fetch_and_inspect_call w
    (pressure_levels_helper_args var pressure_level year month output_filename)

/-- The request dictionary built by `_internal_fetch_era5_single_levels`
(lines 86-93): same fixed fields, no pressure level. -/
def single_levels_request (var year month : String) : List (String × PyVal) :=
  [("product_type", PyVal.str "monthly_averaged_reanalysis"),
   ("variable", PyVal.str var),
   ("year", PyVal.str year),
   ("month", PyVal.str month),
   ("time", PyVal.str "00:00"),
   ("data_format", PyVal.str "netcdf")]

/-- The argument list `_internal_fetch_era5_single_levels` hands to
`_internal_fetch_and_inspect` (line 94): only TWO positional arguments —
the single-levels dataset constant and the output filename; the request
dictionary just built is not passed at all. -/
def single_levels_helper_args (output_filename : String) : List PyVal :=
  [PyVal.str "reanalysis-era5-single-levels-monthly-means",
   PyVal.str output_filename]

/-- `_internal_fetch_era5_single_levels`: builds the request dictionary
(which line 94 then discards) and calls the shared helper with two
positional arguments. -/
def internal_fetch_era5_single_levels (w : World) (var year month output_filename : String) :
    PyResult :=
  let _request := single_levels_request var year month
  internal_fetch_and_inspect_call w (single_levels_helper_args output_filename)

/-- The `fetch_era5_pressure_levels` tool: delegates to the internal
function. -/
def fetch_era5_pressure_levels (w : World) (var : String) (pressure_level : Int)
    (year : PyVal) (month : String) (output_filename : String) : PyResult :=
  internal_fetch_era5_pressure_levels w var pressure_level year month output_filename

/-- The `fetch_era5_single_levels` tool: delegates to the internal
function. -/
def fetch_era5_single_levels (w : World) (var year month output_filename : String) :
    PyResult :=
  internal_fetch_era5_single_levels w var year month output_filename

/-- The dataset of the spec's end-to-end scenario: dimensions
`{time: 12, latitude: 721, longitude: 1440}`, one coordinate `time`
(units `hours since 1900-01-01`, no `long_name`), one data variable
`t2m` (units `K`, no `long_name`). -/
def sampleDs : NcDataset where
  dims := [("time", 12), ("latitude", 721), ("longitude", 1440)]
  coords := [⟨"time", ["time"], none, some "hours since 1900-01-01"⟩]
  data_vars := [⟨"t2m", ["time", "latitude", "longitude"], none, some "K"⟩]

/-- A world with a single valid NetCDF file at `data/sample.nc`. -/
def sampleWorld : World where
  fileExists := fun p => p == "data/sample.nc"
  open_dataset := fun p =>
    if p == "data/sample.nc" then Except.ok sampleDs
    else Except.error "No such file or directory"
  retrieve := fun _ _ _ => Except.error "no network"
  resolve := fun p => p

/-- A world with no files at all. -/
def emptyWorld : World where
  fileExists := fun _ => false
  open_dataset := fun _ => Except.error "No such file or directory"
  retrieve := fun _ _ _ => Except.error "no network"
  resolve := fun p => p

/-- A world where every path exists but opening it fails (a malformed
file). -/
def badFileWorld : World where
  fileExists := fun _ => true
  open_dataset := fun _ => Except.error "[Errno -51] NetCDF: Unknown file format"
  retrieve := fun _ _ _ => Except.error "no network"
  resolve := fun p => p

/-- The world left behind by a successful download of the sample
dataset to `/abs/era5.nc`. -/
def dlResultWorld : World where
  fileExists := fun p => p == "/abs/era5.nc"
  open_dataset := fun p =>
    if p == "/abs/era5.nc" then Except.ok sampleDs
    else Except.error "No such file or directory"
  retrieve := fun _ _ _ => Except.error "no network"
  resolve := fun p => p

/-- A world whose retrieval always succeeds, producing `dlResultWorld`;
paths resolve by prefixing `/abs/`. -/
def dlOkWorld : World where
  fileExists := fun _ => false
  open_dataset := fun _ => Except.error "No such file or directory"
  retrieve := fun _ _ _ => Except.ok dlResultWorld
  resolve := fun p => "/abs/" ++ p

/-- A world whose retrieval always fails with an authentication error. -/
def dlFailWorld : World where
  fileExists := fun _ => false
  open_dataset := fun _ => Except.error "No such file or directory"
  retrieve := fun _ _ _ => Except.error "Authentication failed"
  resolve := fun p => "/abs/" ++ p

/-- A world that resolves every filename to the same absolute path. -/
def constResolveWorld : World where
  fileExists := fun _ => false
  open_dataset := fun _ => Except.error "No such file or directory"
  retrieve := fun _ _ _ => Except.ok dlResultWorld
  resolve := fun _ => "/abs/era5.nc"

example : pathName "data/sample.nc" = "sample.nc" := by decide
example : pyTupleRepr ["time"] = "('time',)" := by decide
example : pyTupleRepr ["time", "latitude"] = "('time', 'latitude')" := by decide

theorem strJoin_append (l1 l2 : List String) :
    strJoin (l1 ++ l2) = strJoin l1 ++ strJoin l2 := by
  induction l1 with
  | nil => simp [strJoin]
  | cons x xs ih => simp [strJoin, ih, String.append_assoc]

theorem strJoinSep_cons (sep x : String) (l : List String) :
    strJoinSep sep (x :: l) = x ++ strJoin (l.map (fun y => sep ++ y)) := by
  induction l generalizing x with
  | nil => simp [strJoinSep, strJoin]
  | cons y ys ih =>
      rw [show strJoinSep sep (x :: y :: ys) = x ++ sep ++ strJoinSep sep (y :: ys) from rfl]
      rw [ih y]
      simp [strJoin, String.append_assoc]

/-- C1: The claim says every invocation of the three tool operations with
arguments of the declared types returns a string, with no failure escaping the
facade as an unhandled exception.  The code violates this for
`fetch_era5_single_levels`: line 94 calls `_internal_fetch_and_inspect` with
two positional arguments instead of three, outside any `try` block, so every
invocation raises a `TypeError` that escapes unhandled.  This theorem
evaluates the code at the failing input
`("2m_temperature", "2023", "01", "era5_data.nc")` in every world. -/
theorem c1_single_levels_unhandled_exception (w : World) :
    fetch_era5_single_levels w "2m_temperature" "2023" "01" "era5_data.nc"
      = PyResult.exn
          "TypeError: _internal_fetch_and_inspect() given the wrong number of positional arguments" :=
  rfl

/-- C2 counterexample: at the concrete invocation with output filename
`era5_data.nc`, the dataset argument handed to the shared download helper is
the single-levels constant `reanalysis-era5-single-levels-monthly-means`, not
the pressure-level constant the claim names. -/
theorem c2_counterexample_dataset_argument :
    ¬ (single_levels_helper_args "era5_data.nc").head?
        = some (PyVal.str "reanalysis-era5-pressure-levels-monthly-means") := by
  intro h
  rw [show (single_levels_helper_args "era5_data.nc").head?
      = some (PyVal.str "reanalysis-era5-single-levels-monthly-means") from rfl] at h
  injection h with h
  injection h with h
  exact absurd h (by decide)

/-- C2 amended: line 94 hands the shared download helper the correct
single-levels dataset constant, but only two positional arguments in total:
the output filename sits in the helper's `request` position, the request
dictionary built on lines 86-93 is discarded, and the helper's
`output_filename` parameter is left unbound, so the call raises a `TypeError`
on every invocation of the single-levels fetch path. -/
theorem c2_single_levels_wrong_call_shape (w : World) (o : String) :
    single_levels_helper_args o
        = [PyVal.str "reanalysis-era5-single-levels-monthly-means", PyVal.str o] ∧
    (single_levels_helper_args o).length = 2 ∧
    internal_fetch_and_inspect_call w (single_levels_helper_args o)
      = PyResult.exn
          "TypeError: _internal_fetch_and_inspect() given the wrong number of positional arguments" :=
  ⟨rfl, rfl, by rfl⟩

/-- C3: The pressure-level request builder, given `variable="geopotential"`,
`pressure_level=500`, `year="2023"`, `month="01"`, produces a query whose
fields equal exactly the claimed dictionary, with the pressure level coerced
to the string `"500"`. -/
theorem c3_pressure_request_fields :
    pressure_levels_request "geopotential" 500 (PyVal.str "2023") "01"
      = [("product_type", PyVal.str "monthly_averaged_reanalysis"),
         ("variable", PyVal.str "geopotential"),
         ("pressure_level", PyVal.str "500"),
         ("year", PyVal.str "2023"),
         ("month", PyVal.str "01"),
         ("time", PyVal.str "00:00"),
         ("data_format", PyVal.str "netcdf")] :=
  rfl

/-- C4: For every variable, year and month, the single-levels request builder
produces a query containing exactly the fixed fields `product_type`,
`variable`, `year`, `month`, `time='00:00'`, `data_format='netcdf'`, and no
`pressure_level` key. -/
theorem c4_single_levels_request_shape (v y m : String) :
    single_levels_request v y m
        = [("product_type", PyVal.str "monthly_averaged_reanalysis"),
           ("variable", PyVal.str v),
           ("year", PyVal.str y),
           ("month", PyVal.str m),
           ("time", PyVal.str "00:00"),
           ("data_format", PyVal.str "netcdf")] ∧
    ((single_levels_request v y m).map Prod.fst).contains "pressure_level" = false :=
  ⟨rfl, rfl⟩

/-- C5: For every invocation of the pressure-levels fetch, if the download
step fails for any reason the operation returns (does not raise) a
descriptive error string containing the underlying failure's description; if
the download succeeds it returns the success message concatenated with the
inspection text of the resulting file. -/
theorem c5_pressure_fetch_outcomes (w : World) (v : String) (pl : Int)
    (y : PyVal) (m o : String) :
    (∀ e, w.retrieve (PyVal.str "reanalysis-era5-pressure-levels-monthly-means")
            (PyVal.dict (pressure_levels_request v pl y m)) (w.resolve o)
          = Except.error e →
        fetch_era5_pressure_levels w v pl y m o
            = PyResult.ok ("Error during CDS API request: " ++ e ++ ".") ∧
        ∃ pre post, "Error during CDS API request: " ++ e ++ "." = pre ++ e ++ post) ∧
    (∀ w2, w.retrieve (PyVal.str "reanalysis-era5-pressure-levels-monthly-means")
            (PyVal.dict (pressure_levels_request v pl y m)) (w.resolve o)
          = Except.ok w2 →
        fetch_era5_pressure_levels w v pl y m o
            = PyResult.ok ("Successfully downloaded data to '" ++ w.resolve o ++ "'.\n\n"
                ++ internal_inspect_netcdf w2 (w.resolve o))) := by
  constructor
  · intro e h
    refine ⟨?_, "Error during CDS API request: ", ".", rfl⟩
    simp only [fetch_era5_pressure_levels, internal_fetch_era5_pressure_levels,
      pressure_levels_helper_args, internal_fetch_and_inspect_call,
      internal_fetch_and_inspect, h]
  · intro w2 h
    simp only [fetch_era5_pressure_levels, internal_fetch_era5_pressure_levels,
      pressure_levels_helper_args, internal_fetch_and_inspect_call,
      internal_fetch_and_inspect, h]

set_option maxRecDepth 8192 in
/-- C5 witness: the theorem applied in a world whose retrieval fails with an
authentication error, and in a world whose retrieval succeeds and leaves the
sample dataset at `/abs/era5.nc`. -/
theorem c5_pressure_fetch_outcomes_witness :
    fetch_era5_pressure_levels dlFailWorld "geopotential" 500 (PyVal.str "2023") "01" "era5.nc"
        = PyResult.ok "Error during CDS API request: Authentication failed." ∧
    fetch_era5_pressure_levels dlOkWorld "geopotential" 500 (PyVal.str "2023") "01" "era5.nc"
        = PyResult.ok ("Successfully downloaded data to '/abs/era5.nc'.\n\n--- NetCDF Inspection Summary for era5.nc ---\n\n[Dimensions]\n- time: 12\n- latitude: 721\n- longitude: 1440\n\n[Coordinates]\n- time (('time',)):  [hours since 1900-01-01]\n\n[Variables]\n- t2m (('time', 'latitude', 'longitude')):  [K]\n\n--- End of Summary ---") := by
  constructor
  · have h := ((c5_pressure_fetch_outcomes dlFailWorld "geopotential" 500
      (PyVal.str "2023") "01" "era5.nc").1 "Authentication failed" rfl).1
    exact h.trans (by rfl)
  · have h := (c5_pressure_fetch_outcomes dlOkWorld "geopotential" 500
      (PyVal.str "2023") "01" "era5.nc").2 dlResultWorld rfl
    exact h.trans (by rfl)

/-- C6: For every file that exists and opens as a dataset, the inspection
formatter produces a report consisting of a header naming the file, then a
Dimensions section listing `- name: size` per dimension, then a Coordinates
section and a Variables section listing `- name (dims): long_name [units]`
per entry (absent attributes rendered as the empty string), each section's
entries in the dataset's native declaration order. -/
theorem c6_inspection_sections (w : World) (fp : String) (ds : NcDataset)
    (h1 : w.fileExists fp = true) (h2 : w.open_dataset fp = Except.ok ds) :
    internal_inspect_netcdf w fp =
      "--- NetCDF Inspection Summary for " ++ pathName fp ++ " ---"
      ++ "\n\n[Dimensions]" ++ strJoin (ds.dims.map (fun p => "\n" ++ dimLine p))
      ++ "\n\n[Coordinates]" ++ strJoin (ds.coords.map (fun c => "\n" ++ fmtVar c))
      ++ "\n\n[Variables]" ++ strJoin (ds.data_vars.map (fun v => "\n" ++ fmtVar v))
      ++ "\n\n--- End of Summary ---" := by
  unfold internal_inspect_netcdf sync_inspect
  rw [h1, h2]
  simp only [Bool.not_true, Bool.false_eq_true, reduceIte, List.cons_append, List.nil_append]
  rw [strJoinSep_cons]
  simp [List.map_append, strJoin_append, List.map_map, Function.comp, strJoin,
    String.append_assoc]
  rw [← String.append_assoc " ---" "\n\n[Dimensions]"]
  rfl

set_option maxRecDepth 8192 in
/-- C6 witness: the spec's end-to-end scenario, a file with dimensions
`{time: 12, latitude: 721, longitude: 1440}`, one coordinate `time` and one
variable `t2m`, yields exactly those entries in that order. -/
theorem c6_inspection_sections_witness :
    internal_inspect_netcdf sampleWorld "data/sample.nc"
        = "--- NetCDF Inspection Summary for sample.nc ---\n\n[Dimensions]\n- time: 12\n- latitude: 721\n- longitude: 1440\n\n[Coordinates]\n- time (('time',)):  [hours since 1900-01-01]\n\n[Variables]\n- t2m (('time', 'latitude', 'longitude')):  [K]\n\n--- End of Summary ---" := by
  have h := c6_inspection_sections sampleWorld "data/sample.nc" sampleDs rfl rfl
  exact h.trans (by rfl)

/-- C7: For every filepath that does not exist at inspection time, the
inspect tool deterministically returns (never raises) a string containing
"not found". -/
theorem c7_inspect_missing_file (w : World) (fp : String)
    (h : w.fileExists fp = false) :
    inspect_netcdf w fp
        = PyResult.ok ("Error: File not found at '" ++ fp ++ "'") ∧
    ∃ pre post, "Error: File not found at '" ++ fp ++ "'" = pre ++ "not found" ++ post := by
  constructor
  · simp [inspect_netcdf, internal_inspect_netcdf, sync_inspect, h]
  · exact ⟨"Error: File ", " at '" ++ fp ++ "'", by rfl⟩

/-- C7 witness: inspecting `missing.nc` in a world with no files. -/
theorem c7_inspect_missing_file_witness :
    inspect_netcdf emptyWorld "missing.nc"
        = PyResult.ok "Error: File not found at 'missing.nc'" := by
  have h := (c7_inspect_missing_file emptyWorld "missing.nc" rfl).1
  exact h.trans (by rfl)

/-- C8: For every filepath that exists but cannot be parsed as a dataset,
the inspect tool returns (never raises) a string containing the error's
description; the failure is captured and returned as the result string. -/
theorem c8_inspect_malformed_file (w : World) (fp e : String)
    (h1 : w.fileExists fp = true) (h2 : w.open_dataset fp = Except.error e) :
    inspect_netcdf w fp = PyResult.ok ("Error inspecting NetCDF file: " ++ e) ∧
    ∃ pre post, "Error inspecting NetCDF file: " ++ e = pre ++ e ++ post := by
  constructor
  · simp [inspect_netcdf, internal_inspect_netcdf, sync_inspect, h1, h2]
  · exact ⟨"Error inspecting NetCDF file: ", "", by simp⟩

/-- C8 witness: inspecting `corrupt.nc` in a world where every path exists
but opening fails with a NetCDF format error. -/
theorem c8_inspect_malformed_file_witness :
    inspect_netcdf badFileWorld "corrupt.nc"
        = PyResult.ok "Error inspecting NetCDF file: [Errno -51] NetCDF: Unknown file format" := by
  have h := (c8_inspect_malformed_file badFileWorld "corrupt.nc"
    "[Errno -51] NetCDF: Unknown file format" rfl rfl).1
  exact h.trans (by rfl)

/-- C10: The shared fetch-and-inspect helper depends on the caller-supplied
output filename only through its resolved path (two filenames with the same
resolution give identical results, so the download and inspection are both
directed at the resolved path), and on success it returns a message embedding
the resolved path — not the caller-supplied filename — followed by the
inspection of the file at that resolved path. -/
theorem c10_resolved_path_usage (w : World) (dataset request : PyVal) :
    (∀ f1 f2, w.resolve f1 = w.resolve f2 →
        internal_fetch_and_inspect w dataset request (PyVal.str f1)
          = internal_fetch_and_inspect w dataset request (PyVal.str f2)) ∧
    (∀ f w2, w.retrieve dataset request (w.resolve f) = Except.ok w2 →
        internal_fetch_and_inspect w dataset request (PyVal.str f)
          = PyResult.ok ("Successfully downloaded data to '" ++ w.resolve f ++ "'.\n\n"
              ++ internal_inspect_netcdf w2 (w.resolve f))) := by
  constructor
  · intro f1 f2 h
    simp only [internal_fetch_and_inspect, h]
  · intro f w2 h
    simp only [internal_fetch_and_inspect, h]

set_option maxRecDepth 8192 in
/-- C10 witness: in a world resolving every filename to `/abs/era5.nc`,
distinct filenames `a.nc` and `b.nc` give identical results; in a world whose
retrieval succeeds, the result embeds the resolved path `/abs/era5.nc` rather
than the caller-supplied `era5.nc`. -/
theorem c10_resolved_path_usage_witness :
    internal_fetch_and_inspect constResolveWorld (PyVal.str "ds") (PyVal.dict [])
        (PyVal.str "a.nc")
      = internal_fetch_and_inspect constResolveWorld (PyVal.str "ds") (PyVal.dict [])
        (PyVal.str "b.nc") ∧
    internal_fetch_and_inspect dlOkWorld
        (PyVal.str "reanalysis-era5-pressure-levels-monthly-means") (PyVal.dict [])
        (PyVal.str "era5.nc")
      = PyResult.ok ("Successfully downloaded data to '/abs/era5.nc'.\n\n--- NetCDF Inspection Summary for era5.nc ---\n\n[Dimensions]\n- time: 12\n- latitude: 721\n- longitude: 1440\n\n[Coordinates]\n- time (('time',)):  [hours since 1900-01-01]\n\n[Variables]\n- t2m (('time', 'latitude', 'longitude')):  [K]\n\n--- End of Summary ---") := by
  constructor
  · exact (c10_resolved_path_usage constResolveWorld (PyVal.str "ds")
      (PyVal.dict [])).1 "a.nc" "b.nc" rfl
  · have h := (c10_resolved_path_usage dlOkWorld
      (PyVal.str "reanalysis-era5-pressure-levels-monthly-means")
      (PyVal.dict [])).2 "era5.nc" dlResultWorld rfl
    exact h.trans (by rfl)
